import Mathlib

/-!
Formal model of the Agro-clima API authentication core:
`app/routers/auth.py`, `app/utils/security.py`, `app/models.py`,
`app/schemas/auth.py`.

Modelling conventions:

* Times are integers (seconds).  A Python `datetime` is modelled by
  `PyDateTime`: a wall-clock value together with an optional UTC offset
  (`tzinfo = none` models a naive datetime, as SQLite hands back for stored
  timestamps).
* The bcrypt hasher (`passlib`, an external library) is modelled by a pair of
  parameters `hashp : String → Nat → H` (password and salt to an opaque hash
  value of type `H`) and `verifyp : String → H → Bool`; theorems that need
  the hasher's correctness state it as an explicit hypothesis.
* The JWT library (`python-jose`, external) is modelled structurally: a token
  is its three parts (header, claims, signature); signing is a parameter
  `mac : String → String × JwtClaims → S` taking the key and the signing
  input (header and claims) to a signature value of type `S`.  `jwt.decode`
  checks the algorithm, the signature, the `exp` claim, and — as
  `python-jose` does by default (`verify_sub`) — that a present `sub` claim
  is a JSON string; every failure is raised as a `JWTError` subclass and the
  caller folds it into `None`.
* Randomness (OTP codes, bcrypt salts) and the current time are passed to
  each operation as explicit arguments.
* Each endpoint is a pure function from the result of the account lookup
  (`Option (User H)`) and the request data to the final account state, the
  list of dispatched notifications, and the HTTP response or error.
-/

/-- A Python `datetime`: wall-clock seconds together with an optional UTC
offset in seconds.  `tzinfo = none` models a naive datetime. -/
structure PyDateTime where
  naive : Int
  tzinfo : Option Int
deriving DecidableEq, Repr

/-- The absolute instant a datetime denotes, reading a naive value as UTC. -/
def PyDateTime.instant (d : PyDateTime) : Int :=
  d.naive - d.tzinfo.getD 0

/-- `ALGORITHM` in `security.py`: the algorithm named by the JWT header. -/
def ALGORITHM : String := "HS256"

/-- `ACCESS_TOKEN_EXPIRE_MINUTES` in `security.py` (24 hours). -/
def ACCESS_TOKEN_EXPIRE_MINUTES : Int := 60 * 24

/-- `OTP_EXPIRE_MINUTES` in `security.py`. -/
def OTP_EXPIRE_MINUTES : Int := 10

/-- A JSON value carried by the `sub` claim.  The code signs the integer
`user.id`; `python-jose` requires a string subject at decode time. -/
inductive JsonVal where
  | jnum : Int → JsonVal
  | jstr : String → JsonVal
deriving DecidableEq, Repr

/-- The claim set the service signs: `{"sub": ..., "exp": ...}`. -/
structure JwtClaims where
  sub : JsonVal
  exp : Int
deriving DecidableEq, Repr

/-- A signed token: header (algorithm name), claims, and a signature over
header and claims. -/
structure Jwt (S : Type) where
  header : String
  claims : JwtClaims
  sig : S
deriving DecidableEq

/-- `create_access_token` (`security.py:91`): adds an `exp` claim at
`now + expires_delta` (default `ACCESS_TOKEN_EXPIRE_MINUTES`; deltas are in
seconds here) and signs header and claims with the secret key. -/
def create_access_token {S : Type} (mac : String → String × JwtClaims → S)
    (key : String) (sub : JsonVal) (now : Int) (expires_delta : Option Int) :
    Jwt S :=
  let expire : Int := now + expires_delta.getD (ACCESS_TOKEN_EXPIRE_MINUTES * 60)
  let claims : JwtClaims := { sub := sub, exp := expire }
  { header := ALGORITHM, claims := claims, sig := mac key (ALGORITHM, claims) }

/-- `verify_token` (`security.py:123`), modelling `python-jose`'s
`jwt.decode(token, key, algorithms=[ALGORITHM])`: the claims are returned iff
the header names the accepted algorithm, the signature matches, the token is
not expired (`exp < now` raises `ExpiredSignatureError`), and the `sub`
claim is a string (`_validate_sub` raises `JWTClaimsError`, a `JWTError`
subclass, on a non-string subject).  Every failure is folded into `none`. -/
def verify_token {S : Type} [DecidableEq S] (mac : String → String × JwtClaims → S)
    (key : String) (t : Jwt S) (now : Int) : Option JwtClaims :=
  if t.header = ALGORITHM ∧ t.sig = mac key (t.header, t.claims) then
    if t.claims.exp < now then none
    else
      match t.claims.sub with
      | JsonVal.jstr _ => some t.claims
      | JsonVal.jnum _ => none
  else none

/-- `get_otp_expiry` (`security.py:165`): an aware UTC datetime ten minutes
from now. -/
def get_otp_expiry (now : Int) : PyDateTime :=
  { naive := now + OTP_EXPIRE_MINUTES * 60, tzinfo := some 0 }

/-- `is_otp_valid` (`security.py:174`): `false` when no expiry is stored; a
naive stored timestamp is first reinterpreted as UTC
(`replace(tzinfo=timezone.utc)`), then the aware comparison
`now < otp_expires_at` compares absolute instants. -/
def is_otp_valid (otp_expires_at : Option PyDateTime) (now : Int) : Bool :=
  match otp_expires_at with
  | none => false
  | some e0 =>
    let e := if e0.tzinfo.isNone then { e0 with tzinfo := some 0 } else e0
    decide (now < e.instant)

/-- The `users` row (`models.py:15`), over an opaque hash type `H`. -/
structure User (H : Type) where
  id : Nat
  email : String
  hashed_password : H
  full_name : Option String
  is_verified : Bool
  otp_code : Option String
  otp_expires_at : Option PyDateTime
  created_at : Option PyDateTime
deriving DecidableEq

/-- Request body of `POST /auth/signup` (`schemas/auth.py`). -/
structure UserSignUp where
  full_name : String
  email : String
  password : String
  confirm_password : String
deriving DecidableEq

/-- Request body of `POST /auth/login`. -/
structure UserLogin where
  email : String
  password : String
deriving DecidableEq

/-- Request body of `POST /auth/verify-email`. -/
structure OTPVerify where
  email : String
  otp_code : String
deriving DecidableEq

/-- Request body of `POST /auth/resend-otp`. -/
structure ResendOTP where
  email : String
deriving DecidableEq

/-- Request body of `POST /auth/forgot-password`. -/
structure ForgotPassword where
  email : String
deriving DecidableEq

/-- Request body of `POST /auth/reset-password`. -/
structure ResetPassword where
  email : String
  otp_code : String
  new_password : String
  confirm_password : String
deriving DecidableEq

/-- The public account view (`UserResponse` in `schemas/auth.py`): it has no
field for the password hash or the OTP pair. -/
structure UserResponse where
  id : Nat
  email : String
  full_name : Option String
  is_verified : Bool
  created_at : Option PyDateTime
deriving DecidableEq

/-- `UserResponse.model_validate(user)`: projects the public fields. -/
def UserResponse.model_validate {H : Type} (u : User H) : UserResponse :=
  { id := u.id, email := u.email, full_name := u.full_name,
    is_verified := u.is_verified, created_at := u.created_at }

/-- The `Token` response schema: access token, token type, public view. -/
structure Token (S : Type) where
  access_token : Jwt S
  token_type : String
  user : UserResponse
deriving DecidableEq

/-- The `MessageResponse` schema. -/
structure MessageResponse where
  message : String
  success : Bool
deriving DecidableEq

/-- An `HTTPException`: status code and detail message. -/
structure HTTPError where
  status_code : Nat
  detail : String
deriving DecidableEq

/-- One `send_otp_email` dispatch (`utils/email.py`): recipient address,
OTP code, and purpose string (`"verify"` or `"reset"`). -/
structure Notification where
  email : String
  otp : String
  purpose : String
deriving DecidableEq

/-- Outcome of one endpoint call touching one account: the account state
after the call (`none` when no account exists for the email), the
notifications dispatched during the call, and the HTTP response or error. -/
abbrev Endpoint (H ρ : Type) :=
  Option (User H) × List Notification × Except HTTPError ρ

/-- `signup` (`auth.py:51`).  `found` is the store lookup by email, `newId`
the row id the store assigns, `created` the store-assigned creation
timestamp, `salt` the bcrypt salt, and `otp`/`expiry` the generated OTP
pair. -/
def signup {H : Type} (hashp : String → Nat → H) (found : Option (User H))
    (d : UserSignUp) (newId : Nat) (salt : Nat) (otp : String)
    (expiry : PyDateTime) (created : Option PyDateTime) :
    Endpoint H MessageResponse :=
  if found.isSome then
    (found, [], Except.error { status_code := 400, detail := "Email already registered" })
  else if d.password ≠ d.confirm_password then
    (found, [], Except.error { status_code := 400, detail := "Passwords do not match" })
  else
    let u : User H :=
      { id := newId, email := d.email, hashed_password := hashp d.password salt,
        full_name := some d.full_name, is_verified := false,
        otp_code := some otp, otp_expires_at := some expiry, created_at := created }
    (some u, [{ email := d.email, otp := otp, purpose := "verify" }],
      Except.ok { message := "Account created! Please check your email for OTP verification.",
                  success := true })

/-- `verify_email` (`auth.py:112`): not-found, already-verified, OTP match,
OTP expiry checks in order; on success sets `is_verified`, clears the OTP
pair, and returns a freshly signed token whose `sub` is the integer
`user.id`, together with the public view of the updated account. -/
def verify_email {H S : Type} [DecidableEq S] (mac : String → String × JwtClaims → S)
    (key : String) (found : Option (User H)) (d : OTPVerify) (now : Int) :
    Endpoint H (Token S) :=
  match found with
  | none => (none, [], Except.error { status_code := 404, detail := "User not found" })
  | some u =>
    if u.is_verified then
      (some u, [], Except.error { status_code := 400, detail := "Email already verified" })
    else if u.otp_code ≠ some d.otp_code then
      (some u, [], Except.error { status_code := 400, detail := "Invalid OTP code" })
    else if !(is_otp_valid u.otp_expires_at now) then
      (some u, [], Except.error { status_code := 400, detail := "OTP has expired. Please request a new one." })
    else
      let u2 : User H := { u with is_verified := true, otp_code := none, otp_expires_at := none }
      let tok := create_access_token mac key (JsonVal.jnum (u.id : Int)) now
        (some (ACCESS_TOKEN_EXPIRE_MINUTES * 60))
      (some u2, [], Except.ok { access_token := tok, token_type := "bearer",
                                user := UserResponse.model_validate u2 })

/-- `resend_otp` (`auth.py:179`): not-found and already-verified checks,
then overwrites the OTP pair and dispatches a verify-purpose email. -/
def resend_otp {H : Type} (found : Option (User H)) (d : ResendOTP)
    (otp : String) (expiry : PyDateTime) : Endpoint H MessageResponse :=
  match found with
  | none => (none, [], Except.error { status_code := 404, detail := "User not found" })
  | some u =>
    if u.is_verified then
      (some u, [], Except.error { status_code := 400, detail := "Email already verified" })
    else
      let u2 : User H := { u with otp_code := some otp, otp_expires_at := some expiry }
      (some u2, [{ email := d.email, otp := otp, purpose := "verify" }],
        Except.ok { message := "New OTP sent to your email!", success := true })

/-- `login` (`auth.py:224`): unknown email and failed password check raise
the same 401; a correct password on an unverified account writes a fresh
OTP pair, dispatches a verify-purpose email, and raises 403; otherwise a
token is signed over the integer `user.id`. -/
def login {H S : Type} [DecidableEq S] (verifyp : String → H → Bool)
    (mac : String → String × JwtClaims → S) (key : String)
    (found : Option (User H)) (d : UserLogin) (otp : String)
    (expiry : PyDateTime) (now : Int) : Endpoint H (Token S) :=
  match found with
  | none => (none, [], Except.error { status_code := 401, detail := "Invalid email or password" })
  | some u =>
    if !(verifyp d.password u.hashed_password) then
      (some u, [], Except.error { status_code := 401, detail := "Invalid email or password" })
    else if !u.is_verified then
      let u2 : User H := { u with otp_code := some otp, otp_expires_at := some expiry }
      (some u2, [{ email := u.email, otp := otp, purpose := "verify" }],
        Except.error { status_code := 403, detail := "Please verify your email first. A new OTP has been sent." })
    else
      let tok := create_access_token mac key (JsonVal.jnum (u.id : Int)) now
        (some (ACCESS_TOKEN_EXPIRE_MINUTES * 60))
      (some u, [], Except.ok { access_token := tok, token_type := "bearer",
                               user := UserResponse.model_validate u })

/-- `forgot_password` (`auth.py:302`): the acknowledgement is the same
literal whether or not the account exists; when it exists the OTP pair is
overwritten and a reset-purpose email dispatched. -/
def forgot_password {H : Type} (found : Option (User H)) (d : ForgotPassword)
    (otp : String) (expiry : PyDateTime) : Endpoint H MessageResponse :=
  match found with
  | none =>
    (none, [], Except.ok { message := "If this email exists, you will receive an OTP shortly.",
                           success := true })
  | some u =>
    let u2 : User H := { u with otp_code := some otp, otp_expires_at := some expiry }
    (some u2, [{ email := d.email, otp := otp, purpose := "reset" }],
      Except.ok { message := "If this email exists, you will receive an OTP shortly.",
                  success := true })

/-- `reset_password` (`auth.py:340`): not-found, OTP match, OTP expiry and
password confirmation checks in order; on success replaces the password
hash and clears the OTP pair.  The response is a `MessageResponse`: no
token is issued. -/
def reset_password {H : Type} (hashp : String → Nat → H) (found : Option (User H))
    (d : ResetPassword) (salt : Nat) (now : Int) : Endpoint H MessageResponse :=
  match found with
  | none => (none, [], Except.error { status_code := 404, detail := "User not found" })
  | some u =>
    if u.otp_code ≠ some d.otp_code then
      (some u, [], Except.error { status_code := 400, detail := "Invalid OTP code" })
    else if !(is_otp_valid u.otp_expires_at now) then
      (some u, [], Except.error { status_code := 400, detail := "OTP has expired. Please request a new one." })
    else if d.new_password ≠ d.confirm_password then
      (some u, [], Except.error { status_code := 400, detail := "Passwords do not match" })
    else
      let u2 : User H := { u with hashed_password := hashp d.new_password salt, otp_code := none, otp_expires_at := none }
      (some u2, [], Except.ok { message := "Password changed successfully! You can now login.", success := true })

/-- The OTP-pair invariant of the spec: `otp_code` is present iff
`otp_expires_at` is present. -/
def otpPaired {H : Type} (u : User H) : Prop :=
  u.otp_code.isSome = u.otp_expires_at.isSome

/-- Account states (for one email) reachable through the auth endpoints from
the empty state, under arbitrary request data, times, salts, and generated
OTP codes.  The first component of each endpoint's result is the account
state it leaves behind. -/
inductive Reachable {H S : Type} [DecidableEq S] (hashp : String → Nat → H)
    (verifyp : String → H → Bool) (mac : String → String × JwtClaims → S)
    (key : String) : Option (User H) → Prop where
  | init : Reachable hashp verifyp mac key none
  | signup_step : ∀ s d newId salt otp expiry created,
      Reachable hashp verifyp mac key s →
      Reachable hashp verifyp mac key (signup hashp s d newId salt otp expiry created).1
  | verify_step : ∀ s d now,
      Reachable hashp verifyp mac key s →
      Reachable hashp verifyp mac key (verify_email mac key s d now).1
  | resend_step : ∀ s d otp expiry,
      Reachable hashp verifyp mac key s →
      Reachable hashp verifyp mac key (resend_otp s d otp expiry).1
  | login_step : ∀ s d otp expiry now,
      Reachable hashp verifyp mac key s →
      Reachable hashp verifyp mac key (login verifyp mac key s d otp expiry now).1
  | forgot_step : ∀ s d otp expiry,
      Reachable hashp verifyp mac key s →
      Reachable hashp verifyp mac key (forgot_password s d otp expiry).1
  | reset_step : ∀ s d salt now,
      Reachable hashp verifyp mac key s →
      Reachable hashp verifyp mac key (reset_password hashp s d salt now).1

/-- Concrete idealized salted hasher used to instantiate the model's hash
parameter in closed examples: the hash value records salt and password. -/
def hashC : String → Nat → Nat × String := fun p s => (s, p)

/-- Concrete verifier matching `hashC`. -/
def verifyC : String → Nat × String → Bool := fun p h => decide (h.2 = p)

/-- Concrete injective signing function used to instantiate the model's
`mac` parameter in closed examples. -/
def macC : String → String × JwtClaims → String × JwtClaims := fun _ x => x

/-- Concrete unverified account used in closed examples. -/
def uC : User (Nat × String) :=
  { id := 1, email := "a@x.com", hashed_password := (0, "Pw123456"),
    full_name := some "A", is_verified := false,
    otp_code := some "123456", otp_expires_at := some { naive := 600, tzinfo := some 0 },
    created_at := none }

/-- Claim C9: `is_otp_valid` returns `true` iff an expiry is stored and
`now` lies strictly before it, a naive stored timestamp being read as UTC
(`PyDateTime.instant` of the normalized value); the normalization makes the
comparison total, the model of never raising a naive/aware error. -/
theorem is_otp_valid_iff (e : Option PyDateTime) (now : Int) :
    is_otp_valid e now = true ↔ ∃ d, e = some d ∧ now < d.instant := by
  cases e with
  | none => simp [is_otp_valid]
  | some d =>
    cases h : d.tzinfo with
    | none => simp [is_otp_valid, PyDateTime.instant, h]
    | some o => simp [is_otp_valid, PyDateTime.instant, h]

/-- Claim C1 (refutation at the code's call sites): every token the service
issues signs the integer `user.id` as its `sub` claim, and `jwt.decode`
(`python-jose`) rejects a non-string subject, so `verify_token` returns
`none` at every verification time — even immediately after issuance and on
the unaltered token.  The spec's round-trip therefore fails on the code. -/
theorem verify_token_of_issued_int_sub {S : Type} [DecidableEq S]
    (mac : String → String × JwtClaims → S) (key : String)
    (i : Int) (ttl now now2 : Int) :
    verify_token mac key (create_access_token mac key (JsonVal.jnum i) now (some ttl)) now2
      = none := by
  simp only [verify_token, create_access_token]
  split
  · split
    · rfl
    · rfl
  · rfl

/-- Claim C5: `forgot_password` returns the identical generic
acknowledgement whether or not the account exists; with no account it
changes no state and dispatches nothing, and with an account it overwrites
the OTP pair and dispatches one reset-purpose notification. -/
theorem forgot_password_enum_resistance {H : Type} (d : ForgotPassword)
    (otp : String) (expiry : PyDateTime) :
    forgot_password (none : Option (User H)) d otp expiry =
      (none, [],
       Except.ok { message := "If this email exists, you will receive an OTP shortly.", success := true }) ∧
    ∀ u : User H, forgot_password (some u) d otp expiry =
      (some { u with otp_code := some otp, otp_expires_at := some expiry },
       [{ email := d.email, otp := otp, purpose := "reset" }],
       Except.ok { message := "If this email exists, you will receive an OTP shortly.", success := true }) :=
  ⟨rfl, fun _ => rfl⟩

/-- Claim C3: login with an unknown email and login with a known email but a
failing password check produce byte-identical error outcomes — the same
status code and the same detail string — so the caller cannot distinguish
the two causes. -/
theorem login_enum_resistance {H S : Type} [DecidableEq S]
    (verifyp : String → H → Bool) (mac : String → String × JwtClaims → S)
    (key : String) (u : User H) (d1 d2 : UserLogin) (otp1 otp2 : String)
    (exp1 exp2 : PyDateTime) (now1 now2 : Int)
    (hpw : verifyp d2.password u.hashed_password = false) :
    (login verifyp mac key none d1 otp1 exp1 now1).2.2 =
      Except.error { status_code := 401, detail := "Invalid email or password" } ∧
    (login verifyp mac key (some u) d2 otp2 exp2 now2).2.2 =
      Except.error { status_code := 401, detail := "Invalid email or password" } := by
  constructor
  · rfl
  · simp [login, hpw]

/-- Witness for C3 at a concrete account and requests. -/
theorem login_enum_resistance_witness :
    verifyC "wrongpw" uC.hashed_password = false ∧
    (login verifyC macC "k" (none : Option (User (Nat × String))) { email := "b@x.com", password := "whatever" }
        "111111" { naive := 600, tzinfo := some 0 } 0).2.2 =
      Except.error { status_code := 401, detail := "Invalid email or password" } ∧
    (login verifyC macC "k" (some uC) { email := "a@x.com", password := "wrongpw" }
        "111111" { naive := 600, tzinfo := some 0 } 0).2.2 =
      Except.error { status_code := 401, detail := "Invalid email or password" } :=
  ⟨by decide,
   (login_enum_resistance verifyC macC "k" uC { email := "b@x.com", password := "whatever" }
      { email := "a@x.com", password := "wrongpw" } "111111" "111111"
      { naive := 600, tzinfo := some 0 } { naive := 600, tzinfo := some 0 } 0 0 (by decide)).1,
   (login_enum_resistance verifyC macC "k" uC { email := "b@x.com", password := "whatever" }
      { email := "a@x.com", password := "wrongpw" } "111111" "111111"
      { naive := 600, tzinfo := some 0 } { naive := 600, tzinfo := some 0 } 0 0 (by decide)).2⟩

/-- Claim C4: when the password matches but the account is unverified, login
returns no token: it writes a fresh OTP pair onto the account, dispatches a
verify-purpose notification, and fails with the 403 `EmailNotVerified`
error. -/
theorem login_unverified_resends_otp {H S : Type} [DecidableEq S]
    (verifyp : String → H → Bool) (mac : String → String × JwtClaims → S)
    (key : String) (u : User H) (d : UserLogin) (otp : String)
    (expiry : PyDateTime) (now : Int)
    (hpw : verifyp d.password u.hashed_password = true)
    (hver : u.is_verified = false) :
    login verifyp mac key (some u) d otp expiry now =
      (some { u with otp_code := some otp, otp_expires_at := some expiry },
       [{ email := u.email, otp := otp, purpose := "verify" }],
       Except.error { status_code := 403, detail := "Please verify your email first. A new OTP has been sent." }) := by
  simp [login, hpw, hver]

/-- Witness for C4 at a concrete unverified account. -/
theorem login_unverified_resends_otp_witness :
    verifyC "Pw123456" uC.hashed_password = true ∧ uC.is_verified = false ∧
    login verifyC macC "k" (some uC) { email := "a@x.com", password := "Pw123456" }
        "654321" { naive := 600, tzinfo := some 0 } 0 =
      (some { uC with otp_code := some "654321", otp_expires_at := some { naive := 600, tzinfo := some 0 } },
       [{ email := "a@x.com", otp := "654321", purpose := "verify" }],
       Except.error { status_code := 403, detail := "Please verify your email first. A new OTP has been sent." }) :=
  ⟨by decide, rfl,
   login_unverified_resends_otp verifyC macC "k" uC { email := "a@x.com", password := "Pw123456" }
     "654321" { naive := 600, tzinfo := some 0 } 0 (by decide) rfl⟩

/-- Claim C2: on an unverified account with the exactly-matching code before
expiry, `verify_email` sets `is_verified`, clears both OTP fields, and
returns a freshly issued token with the public account view; a second call
on the updated account fails `AlreadyVerified`; with the correct code after
expiry it fails `OTPExpired`. -/
theorem verify_email_verifies_once {H S : Type} [DecidableEq S]
    (mac : String → String × JwtClaims → S) (key : String)
    (u : User H) (d : OTPVerify) (now : Int)
    (hver : u.is_verified = false) (hcode : u.otp_code = some d.otp_code) :
    (is_otp_valid u.otp_expires_at now = true →
      verify_email mac key (some u) d now =
        (some { u with is_verified := true, otp_code := none, otp_expires_at := none }, [],
         Except.ok
           { access_token := create_access_token mac key (JsonVal.jnum (u.id : Int)) now (some (ACCESS_TOKEN_EXPIRE_MINUTES * 60)),
             token_type := "bearer",
             user := UserResponse.model_validate { u with is_verified := true, otp_code := none, otp_expires_at := none } }) ∧
      (∀ d2 : OTPVerify, ∀ now2 : Int,
        verify_email mac key (some { u with is_verified := true, otp_code := none, otp_expires_at := none }) d2 now2 =
          (some { u with is_verified := true, otp_code := none, otp_expires_at := none }, [],
           Except.error { status_code := 400, detail := "Email already verified" }))) ∧
    (is_otp_valid u.otp_expires_at now = false →
      verify_email mac key (some u) d now =
        (some u, [], Except.error { status_code := 400, detail := "OTP has expired. Please request a new one." })) := by
  constructor
  · intro hvalid
    constructor
    · simp [verify_email, hver, hcode, hvalid]
    · intro d2 now2
      simp [verify_email]
  · intro hexp
    simp [verify_email, hver, hcode, hexp]

/-- Witness for C2 at a concrete account, code, and times. -/
theorem verify_email_verifies_once_witness :
    uC.is_verified = false ∧ uC.otp_code = some "123456" ∧
    is_otp_valid uC.otp_expires_at 0 = true ∧
    verify_email macC "k" (some uC) { email := "a@x.com", otp_code := "123456" } 0 =
      (some { uC with is_verified := true, otp_code := none, otp_expires_at := none }, [],
       Except.ok
         { access_token := create_access_token macC "k" (JsonVal.jnum 1) 0 (some (ACCESS_TOKEN_EXPIRE_MINUTES * 60)),
           token_type := "bearer",
           user := UserResponse.model_validate { uC with is_verified := true, otp_code := none, otp_expires_at := none } }) ∧
    verify_email macC "k" (some { uC with is_verified := true, otp_code := none, otp_expires_at := none })
        { email := "a@x.com", otp_code := "123456" } 99 =
      (some { uC with is_verified := true, otp_code := none, otp_expires_at := none }, [],
       Except.error { status_code := 400, detail := "Email already verified" }) :=
  ⟨rfl, rfl, rfl,
   ((verify_email_verifies_once macC "k" uC { email := "a@x.com", otp_code := "123456" } 0 rfl rfl).1 rfl).1,
   ((verify_email_verifies_once macC "k" uC { email := "a@x.com", otp_code := "123456" } 0 rfl rfl).1 rfl).2
     { email := "a@x.com", otp_code := "123456" } 99⟩

/-- Claim C7: a successful `resend_otp` replaces both `otp_code` and
`otp_expires_at`, so a subsequent `verify_email` with the previously stored
code (differing from the new one) fails `InvalidOTP`; `resend_otp` itself
fails 404 when no account has the email and 400 when already verified. -/
theorem resend_otp_invalidates_old {H S : Type} [DecidableEq S]
    (mac : String → String × JwtClaims → S) (key : String)
    (u : User H) (d : ResendOTP) (oldCode newOtp : String) (expiry : PyDateTime)
    (hver : u.is_verified = false) (_hold : u.otp_code = some oldCode)
    (hne : oldCode ≠ newOtp) :
    resend_otp (some u) d newOtp expiry =
      (some { u with otp_code := some newOtp, otp_expires_at := some expiry },
       [{ email := d.email, otp := newOtp, purpose := "verify" }],
       Except.ok { message := "New OTP sent to your email!", success := true }) ∧
    (∀ e2 : String, ∀ now2 : Int,
      verify_email mac key (some { u with otp_code := some newOtp, otp_expires_at := some expiry })
          { email := e2, otp_code := oldCode } now2 =
        (some { u with otp_code := some newOtp, otp_expires_at := some expiry }, [],
         Except.error { status_code := 400, detail := "Invalid OTP code" })) ∧
    (∀ d2 : ResendOTP, ∀ otp2 : String, ∀ exp2 : PyDateTime,
      resend_otp (none : Option (User H)) d2 otp2 exp2 =
        (none, [], Except.error { status_code := 404, detail := "User not found" })) ∧
    (∀ v : User H, v.is_verified = true → ∀ d2 : ResendOTP, ∀ otp2 : String, ∀ exp2 : PyDateTime,
      resend_otp (some v) d2 otp2 exp2 =
        (some v, [], Except.error { status_code := 400, detail := "Email already verified" })) := by
  refine ⟨?_, ?_, ?_, ?_⟩
  · simp [resend_otp, hver]
  · intro e2 now2
    simp [verify_email, hver, Ne.symm hne]
  · intro d2 otp2 exp2
    rfl
  · intro v hv d2 otp2 exp2
    simp [resend_otp, hv]

/-- Witness for C7 at a concrete account and codes. -/
theorem resend_otp_invalidates_old_witness :
    uC.is_verified = false ∧ uC.otp_code = some "123456" ∧
    resend_otp (some uC) { email := "a@x.com" } "654321" { naive := 900, tzinfo := some 0 } =
      (some { uC with otp_code := some "654321", otp_expires_at := some { naive := 900, tzinfo := some 0 } },
       [{ email := "a@x.com", otp := "654321", purpose := "verify" }],
       Except.ok { message := "New OTP sent to your email!", success := true }) ∧
    verify_email macC "k" (some { uC with otp_code := some "654321", otp_expires_at := some { naive := 900, tzinfo := some 0 } })
        { email := "a@x.com", otp_code := "123456" } 0 =
      (some { uC with otp_code := some "654321", otp_expires_at := some { naive := 900, tzinfo := some 0 } }, [],
       Except.error { status_code := 400, detail := "Invalid OTP code" }) :=
  ⟨rfl, rfl,
   (resend_otp_invalidates_old macC "k" uC { email := "a@x.com" } "123456" "654321"
      { naive := 900, tzinfo := some 0 } rfl rfl (by decide)).1,
   (resend_otp_invalidates_old macC "k" uC { email := "a@x.com" } "123456" "654321"
      { naive := 900, tzinfo := some 0 } rfl rfl (by decide)).2.1 "a@x.com" 0⟩

/-- Claim C6: with the matching code before expiry and equal new/confirm
passwords, `reset_password` replaces the stored hash (under a correct
hasher, the old password no longer verifies and the new one does), clears
both OTP fields so that any replay fails `InvalidOTP`, and returns only a
`MessageResponse` — no session token is issued. -/
theorem reset_password_correct {H : Type}
    (hashp : String → Nat → H) (verifyp : String → H → Bool)
    (u : User H) (d : ResetPassword) (salt : Nat) (now : Int)
    (hhash : ∀ p : String, ∀ s : Nat, ∀ q : String, verifyp q (hashp p s) = true ↔ q = p)
    (hcode : u.otp_code = some d.otp_code)
    (hvalid : is_otp_valid u.otp_expires_at now = true)
    (hconf : d.new_password = d.confirm_password) :
    reset_password hashp (some u) d salt now =
      (some { u with hashed_password := hashp d.new_password salt, otp_code := none, otp_expires_at := none }, [],
       Except.ok { message := "Password changed successfully! You can now login.", success := true }) ∧
    verifyp d.new_password (hashp d.new_password salt) = true ∧
    (∀ old : String, old ≠ d.new_password → verifyp old (hashp d.new_password salt) = false) ∧
    (∀ d2 : ResetPassword, ∀ salt2 : Nat, ∀ now2 : Int,
      reset_password hashp
          (some { u with hashed_password := hashp d.new_password salt, otp_code := none, otp_expires_at := none })
          d2 salt2 now2 =
        (some { u with hashed_password := hashp d.new_password salt, otp_code := none, otp_expires_at := none }, [],
         Except.error { status_code := 400, detail := "Invalid OTP code" })) := by
  refine ⟨?_, ?_, ?_, ?_⟩
  · simp [reset_password, hcode, hvalid, hconf]
  · exact (hhash d.new_password salt d.new_password).mpr rfl
  · intro old hne
    cases h : verifyp old (hashp d.new_password salt) with
    | false => rfl
    | true => exact absurd ((hhash d.new_password salt old).mp h) hne
  · intro d2 salt2 now2
    simp [reset_password]

/-- Witness for C6 at a concrete account and passwords. -/
theorem reset_password_correct_witness :
    uC.otp_code = some "123456" ∧ is_otp_valid uC.otp_expires_at 0 = true ∧
    reset_password hashC (some uC) { email := "a@x.com", otp_code := "123456", new_password := "NewPw123", confirm_password := "NewPw123" } 7 0 =
      (some { uC with hashed_password := hashC "NewPw123" 7, otp_code := none, otp_expires_at := none }, [],
       Except.ok { message := "Password changed successfully! You can now login.", success := true }) ∧
    verifyC "NewPw123" (hashC "NewPw123" 7) = true ∧
    verifyC "Pw123456" (hashC "NewPw123" 7) = false ∧
    reset_password hashC
        (some { uC with hashed_password := hashC "NewPw123" 7, otp_code := none, otp_expires_at := none })
        { email := "a@x.com", otp_code := "123456", new_password := "Zz123456", confirm_password := "Zz123456" } 9 5 =
      (some { uC with hashed_password := hashC "NewPw123" 7, otp_code := none, otp_expires_at := none }, [],
       Except.error { status_code := 400, detail := "Invalid OTP code" }) := by
  have key := reset_password_correct hashC verifyC uC
    { email := "a@x.com", otp_code := "123456", new_password := "NewPw123", confirm_password := "NewPw123" } 7 0
    (fun p s q => by simp [verifyC, hashC, eq_comm]) rfl rfl rfl
  exact ⟨rfl, rfl, key.1, key.2.1, key.2.2.1 "Pw123456" (by decide),
    key.2.2.2 { email := "a@x.com", otp_code := "123456", new_password := "Zz123456", confirm_password := "Zz123456" } 9 5⟩

/-- Claim C10 (implicit): stored OTPs carry no purpose field, so on an
unverified account the code written by `forgot_password` (dispatched with
reset purpose) is accepted by `verify_email` before expiry, which then
marks the account verified and issues a session token. -/
theorem forgot_otp_accepted_by_verify_email {H S : Type} [DecidableEq S]
    (mac : String → String × JwtClaims → S) (key : String)
    (u : User H) (d : ForgotPassword) (otp : String)
    (expiry : PyDateTime) (now : Int)
    (hver : u.is_verified = false)
    (hvalid : is_otp_valid (some expiry) now = true) :
    forgot_password (some u) d otp expiry =
      (some { u with otp_code := some otp, otp_expires_at := some expiry },
       [{ email := d.email, otp := otp, purpose := "reset" }],
       Except.ok { message := "If this email exists, you will receive an OTP shortly.", success := true }) ∧
    verify_email mac key (some { u with otp_code := some otp, otp_expires_at := some expiry })
        { email := u.email, otp_code := otp } now =
      (some { u with is_verified := true, otp_code := none, otp_expires_at := none }, [],
       Except.ok
         { access_token := create_access_token mac key (JsonVal.jnum (u.id : Int)) now (some (ACCESS_TOKEN_EXPIRE_MINUTES * 60)),
           token_type := "bearer",
           user := UserResponse.model_validate { u with is_verified := true, otp_code := none, otp_expires_at := none } }) := by
  refine ⟨rfl, ?_⟩
  simp [verify_email, hver, hvalid]

/-- Witness for C10 at a concrete unverified account. -/
theorem forgot_otp_accepted_by_verify_email_witness :
    uC.is_verified = false ∧
    is_otp_valid (some { naive := 600, tzinfo := some 0 }) 0 = true ∧
    forgot_password (some uC) { email := "a@x.com" } "999999" { naive := 600, tzinfo := some 0 } =
      (some { uC with otp_code := some "999999", otp_expires_at := some { naive := 600, tzinfo := some 0 } },
       [{ email := "a@x.com", otp := "999999", purpose := "reset" }],
       Except.ok { message := "If this email exists, you will receive an OTP shortly.", success := true }) ∧
    verify_email macC "k" (some { uC with otp_code := some "999999", otp_expires_at := some { naive := 600, tzinfo := some 0 } })
        { email := "a@x.com", otp_code := "999999" } 0 =
      (some { uC with is_verified := true, otp_code := none, otp_expires_at := none }, [],
       Except.ok
         { access_token := create_access_token macC "k" (JsonVal.jnum 1) 0 (some (ACCESS_TOKEN_EXPIRE_MINUTES * 60)),
           token_type := "bearer",
           user := UserResponse.model_validate { uC with is_verified := true, otp_code := none, otp_expires_at := none } }) :=
  ⟨rfl, rfl,
   (forgot_otp_accepted_by_verify_email macC "k" uC { email := "a@x.com" } "999999"
      { naive := 600, tzinfo := some 0 } 0 rfl rfl).1,
   (forgot_otp_accepted_by_verify_email macC "k" uC { email := "a@x.com" } "999999"
      { naive := 600, tzinfo := some 0 } 0 rfl rfl).2⟩

/-- The state `signup` leaves behind keeps the OTP pair synchronized. -/
theorem signup_state_paired {H : Type} (hashp : String → Nat → H)
    (s : Option (User H)) (d : UserSignUp) (newId salt : Nat) (otp : String)
    (expiry : PyDateTime) (created : Option PyDateTime)
    (ih : ∀ u, s = some u → otpPaired u) :
    ∀ u, (signup hashp s d newId salt otp expiry created).1 = some u → otpPaired u := by
  intro u h
  cases s with
  | some u0 =>
    simp [signup] at h
    exact h ▸ ih u0 rfl
  | none =>
    by_cases hp : d.password = d.confirm_password
    · simp [signup, hp] at h
      simp [← h, otpPaired]
    · simp [signup, hp] at h

/-- The state `verify_email` leaves behind keeps the OTP pair synchronized. -/
theorem verify_email_state_paired {H S : Type} [DecidableEq S]
    (mac : String → String × JwtClaims → S) (key : String)
    (s : Option (User H)) (d : OTPVerify) (now : Int)
    (ih : ∀ u, s = some u → otpPaired u) :
    ∀ u, (verify_email mac key s d now).1 = some u → otpPaired u := by
  intro u h
  cases s with
  | none => simp [verify_email] at h
  | some u0 =>
    simp only [verify_email] at h
    split at h
    · exact (Option.some_inj.mp h) ▸ ih u0 rfl
    · split at h
      · exact (Option.some_inj.mp h) ▸ ih u0 rfl
      · split at h
        · exact (Option.some_inj.mp h) ▸ ih u0 rfl
        · simp at h
          simp [← h, otpPaired]

/-- The state `resend_otp` leaves behind keeps the OTP pair synchronized. -/
theorem resend_otp_state_paired {H : Type}
    (s : Option (User H)) (d : ResendOTP) (otp : String) (expiry : PyDateTime)
    (ih : ∀ u, s = some u → otpPaired u) :
    ∀ u, (resend_otp s d otp expiry).1 = some u → otpPaired u := by
  intro u h
  cases s with
  | none => simp [resend_otp] at h
  | some u0 =>
    simp only [resend_otp] at h
    split at h
    · exact (Option.some_inj.mp h) ▸ ih u0 rfl
    · simp at h
      simp [← h, otpPaired]

/-- The state `login` leaves behind keeps the OTP pair synchronized. -/
theorem login_state_paired {H S : Type} [DecidableEq S]
    (verifyp : String → H → Bool) (mac : String → String × JwtClaims → S)
    (key : String) (s : Option (User H)) (d : UserLogin) (otp : String)
    (expiry : PyDateTime) (now : Int)
    (ih : ∀ u, s = some u → otpPaired u) :
    ∀ u, (login verifyp mac key s d otp expiry now).1 = some u → otpPaired u := by
  intro u h
  cases s with
  | none => simp [login] at h
  | some u0 =>
    simp only [login] at h
    split at h
    · exact (Option.some_inj.mp h) ▸ ih u0 rfl
    · split at h
      · simp at h
        simp [← h, otpPaired]
      · exact (Option.some_inj.mp h) ▸ ih u0 rfl

/-- The state `forgot_password` leaves behind keeps the OTP pair
synchronized. -/
theorem forgot_password_state_paired {H : Type}
    (s : Option (User H)) (d : ForgotPassword) (otp : String) (expiry : PyDateTime)
    (ih : ∀ u, s = some u → otpPaired u) :
    ∀ u, (forgot_password s d otp expiry).1 = some u → otpPaired u := by
  intro u h
  cases s with
  | none => simp [forgot_password] at h
  | some u0 =>
    simp [forgot_password] at h
    simp [← h, otpPaired]

/-- The state `reset_password` leaves behind keeps the OTP pair
synchronized. -/
theorem reset_password_state_paired {H : Type} (hashp : String → Nat → H)
    (s : Option (User H)) (d : ResetPassword) (salt : Nat) (now : Int)
    (ih : ∀ u, s = some u → otpPaired u) :
    ∀ u, (reset_password hashp s d salt now).1 = some u → otpPaired u := by
  intro u h
  cases s with
  | none => simp [reset_password] at h
  | some u0 =>
    simp only [reset_password] at h
    split at h
    · exact (Option.some_inj.mp h) ▸ ih u0 rfl
    · split at h
      · exact (Option.some_inj.mp h) ▸ ih u0 rfl
      · split at h
        · exact (Option.some_inj.mp h) ▸ ih u0 rfl
        · simp at h
          simp [← h, otpPaired]

/-- Claim C8: in every account state reachable through the auth endpoints,
`otp_code` is present iff `otp_expires_at` is present — every operation
sets both fields together or clears both together. -/
theorem reachable_otp_paired {H S : Type} [DecidableEq S]
    (hashp : String → Nat → H) (verifyp : String → H → Bool)
    (mac : String → String × JwtClaims → S) (key : String)
    (s : Option (User H)) (hr : Reachable hashp verifyp mac key s) :
    ∀ u, s = some u → otpPaired u := by
  induction hr with
  | init => intro u h; exact absurd h (by simp)
  | signup_step s d newId salt otp expiry created hr ih =>
    exact signup_state_paired hashp s d newId salt otp expiry created ih
  | verify_step s d now hr ih =>
    exact verify_email_state_paired mac key s d now ih
  | resend_step s d otp expiry hr ih =>
    exact resend_otp_state_paired s d otp expiry ih
  | login_step s d otp expiry now hr ih =>
    exact login_state_paired verifyp mac key s d otp expiry now ih
  | forgot_step s d otp expiry hr ih =>
    exact forgot_password_state_paired s d otp expiry ih
  | reset_step s d salt now hr ih =>
    exact reset_password_state_paired hashp s d salt now ih

/-- Witness for C8: the invariant at the state reached by a concrete
signup from the empty state. -/
theorem reachable_otp_paired_witness :
    otpPaired { id := 1, email := "a@x.com", hashed_password := hashC "Pw123456" 0,
                full_name := some "A", is_verified := false, otp_code := some "123456",
                otp_expires_at := some { naive := 600, tzinfo := some 0 }, created_at := none } :=
  reachable_otp_paired hashC verifyC macC "k" _
    (Reachable.signup_step none { full_name := "A", email := "a@x.com", password := "Pw123456", confirm_password := "Pw123456" }
      1 0 "123456" { naive := 600, tzinfo := some 0 } none Reachable.init)
    _ (by decide)
